import Mathlib

/-!
Shallow embedding of the controller-manager bootstrap of
cluster-api-provider-metal3 (`main.go`): the TLS policy builder
(`GetTLSOptionOverrideFuncs`, `GetTLSVersion`), the API readiness gate
(`waitForAPIs`), the fail-fast reconciler/webhook registration
(`setupReconcilers`, `setupWebhooks`), and the top-level `main` control
flow around the opt-in readiness switch.

Go closures `func(*tls.Config)` are embedded as first-order mutator data
(`TLSMutator`) together with an explicit application function
(`applyMutator`); errors produced with `fmt.Errorf` are embedded as an
inductive error type carrying the formatted arguments; log lines emitted
with `setupLog.Info` that the spec calls warnings are collected in an
explicit warning list returned alongside the result.
-/

/-- Protocol identifier `tls.VersionTLS12` (0x0303) from Go `crypto/tls`. -/
def VersionTLS12 : Nat := 771

/-- Protocol identifier `tls.VersionTLS13` (0x0304) from Go `crypto/tls`. -/
def VersionTLS13 : Nat := 772

/-- The two supported TLS version labels (`tlsSupportedVersions` in `main.go`). -/
def tlsSupportedVersions : List String := ["TLS12", "TLS13"]

/-- `TLSOptions` struct from `main.go` (field order as in the source). -/
structure TLSOptions where
  TLSMaxVersion : String
  TLSMinVersion : String
  TLSCipherSuites : String
deriving DecidableEq

/-- The errors `GetTLSVersion` / `GetTLSOptionOverrideFuncs` can produce,
one constructor per `fmt.Errorf` site, carrying the formatted arguments. -/
inductive TLSError where
  /-- "unexpected TLS version %q (must be one of: TLS12, TLS13)" -/
  | invalidTLSVersion (version : String)
  /-- "TLS version flag min version (%s) is greater than max version (%s)" -/
  | rangeInverted (minLabel maxLabel : String)
  /-- "Couldn't parse as TLSCipherSuite: %s" (from `cliflag.TLSCipherSuites`) -/
  | unknownCipherSuite (name : String)
deriving DecidableEq

/-- Warnings logged via `setupLog.Info` during `GetTLSOptionOverrideFuncs`. -/
inductive TLSWarning where
  /-- "warning: Cipher suites should not be set for TLS version 1.3. Ignoring ciphers" -/
  | ciphersIgnoredForTLS13
  /-- "warning: use of insecure cipher '%s' detected." -/
  | insecureCipher (name : String)
deriving DecidableEq

/-- A single TLS-configuration mutator: the data content of the Go closures
`func(cfg *tls.Config)` appended to the override list. -/
inductive TLSMutator where
  | setMinVersion (v : Nat)
  | setMaxVersion (v : Nat)
  | setCipherSuites (cs : List Nat)
deriving DecidableEq

/-- The fields of Go `tls.Config` touched by the mutators. -/
structure TLSConfig where
  MinVersion : Nat := 0
  MaxVersion : Nat := 0
  CipherSuites : List Nat := []
deriving DecidableEq

/-- Apply one mutator to a TLS configuration (the body of each closure). -/
def applyMutator (cfg : TLSConfig) (m : TLSMutator) : TLSConfig :=
  match m with
  | TLSMutator.setMinVersion v => { cfg with MinVersion := v }
  | TLSMutator.setMaxVersion v => { cfg with MaxVersion := v }
  | TLSMutator.setCipherSuites cs => { cfg with CipherSuites := cs }

/-- Apply a mutator list in order (what `ctrl.NewManager` does with `TLSOpts`). -/
def applyMutators (cfg : TLSConfig) (ms : List TLSMutator) : TLSConfig :=
  ms.foldl applyMutator cfg

/-- `GetTLSVersion` from `main.go`: resolve a version label to a protocol
identifier, or fail with the invalid-version error. -/
def GetTLSVersion (version : String) : Except TLSError Nat :=
  if version = "TLS12" then Except.ok VersionTLS12
  else if version = "TLS13" then Except.ok VersionTLS13
  else Except.error (TLSError.invalidTLSVersion version)

/-- The cipher registry of Go `crypto/tls` `CipherSuites()` (secure suites),
as name/identifier pairs; consumed by `k8s.io/component-base/cli/flag`. -/
def secureCipherRegistry : List (String × Nat) :=
  [("TLS_RSA_WITH_AES_128_CBC_SHA", 47),
   ("TLS_RSA_WITH_AES_256_CBC_SHA", 53),
   ("TLS_RSA_WITH_AES_128_GCM_SHA256", 156),
   ("TLS_RSA_WITH_AES_256_GCM_SHA384", 157),
   ("TLS_AES_128_GCM_SHA256", 4865),
   ("TLS_AES_256_GCM_SHA384", 4866),
   ("TLS_CHACHA20_POLY1305_SHA256", 4867),
   ("TLS_ECDHE_ECDSA_WITH_AES_128_CBC_SHA", 49161),
   ("TLS_ECDHE_ECDSA_WITH_AES_256_CBC_SHA", 49162),
   ("TLS_ECDHE_RSA_WITH_AES_128_CBC_SHA", 49171),
   ("TLS_ECDHE_RSA_WITH_AES_256_CBC_SHA", 49172),
   ("TLS_ECDHE_ECDSA_WITH_AES_128_GCM_SHA256", 49195),
   ("TLS_ECDHE_ECDSA_WITH_AES_256_GCM_SHA384", 49196),
   ("TLS_ECDHE_RSA_WITH_AES_128_GCM_SHA256", 49199),
   ("TLS_ECDHE_RSA_WITH_AES_256_GCM_SHA384", 49200),
   ("TLS_ECDHE_RSA_WITH_CHACHA20_POLY1305_SHA256", 52392),
   ("TLS_ECDHE_ECDSA_WITH_CHACHA20_POLY1305_SHA256", 52393)]

/-- The known-insecure cipher registry of Go `crypto/tls`
`InsecureCipherSuites()`, as name/identifier pairs. -/
def insecureCipherRegistry : List (String × Nat) :=
  [("TLS_RSA_WITH_RC4_128_SHA", 5),
   ("TLS_RSA_WITH_3DES_EDE_CBC_SHA", 10),
   ("TLS_RSA_WITH_AES_128_CBC_SHA256", 60),
   ("TLS_ECDHE_ECDSA_WITH_RC4_128_SHA", 49159),
   ("TLS_ECDHE_ECDSA_WITH_AES_128_CBC_SHA256", 49187),
   ("TLS_ECDHE_RSA_WITH_RC4_128_SHA", 49169),
   ("TLS_ECDHE_RSA_WITH_3DES_EDE_CBC_SHA", 49170),
   ("TLS_ECDHE_RSA_WITH_AES_128_CBC_SHA256", 49191)]

/-- `cliflag.InsecureTLSCipherNames()`: names of the known-insecure ciphers. -/
def InsecureTLSCipherNames : List String :=
  insecureCipherRegistry.map Prod.fst

/-- Look a cipher name up in the full registry (`allCiphers()` in
`k8s.io/component-base/cli/flag`: secure and insecure suites together). -/
def lookupCipher (name : String) : Option Nat :=
  ((secureCipherRegistry ++ insecureCipherRegistry).find? (fun p => p.1 = name)).map Prod.snd

/-- `cliflag.TLSCipherSuites`: resolve each name in order, failing with the
unknown-cipher-suite error on the first name absent from the registry. -/
def TLSCipherSuites : List String → Except TLSError (List Nat)
  | [] => Except.ok []
  | n :: rest =>
    match lookupCipher n with
    | none => Except.error (TLSError.unknownCipherSuite n)
    | some v =>
      match TLSCipherSuites rest with
      | Except.error e => Except.error e
      | Except.ok vs => Except.ok (v :: vs)

/-- Split a character list at every comma; the word-list semantics of Go
`strings.Split(s, ",")` (the empty input yields one empty word). -/
def splitCommaChars : List Char → List (List Char)
  | [] => [[]]
  | c :: rest =>
    match splitCommaChars rest with
    | [] => [[]]
    | w :: ws => if c = ',' then [] :: w :: ws else (c :: w) :: ws

/-- Go `strings.Split(s, ",")` as used in `GetTLSOptionOverrideFuncs`. -/
def splitOnComma (s : String) : List String :=
  (splitCommaChars s.data).map (fun cs => String.mk cs)

/-- The range-validation guard of `GetTLSOptionOverrideFuncs` (`main.go`
line 474): `tlsMaxVersion != 0 && tlsMinVersion > tlsMaxVersion`. -/
def rangeInvertedGuard (tlsMinVersion tlsMaxVersion : Nat) : Bool :=
  tlsMaxVersion != 0 && decide (tlsMinVersion > tlsMaxVersion)

/-- The double loop of `GetTLSOptionOverrideFuncs` over the requested cipher
names and `cliflag.InsecureTLSCipherNames()`: one warning per matching pair. -/
def insecureWarnings (names : List String) : List TLSWarning :=
  names.flatMap (fun cipher =>
    (InsecureTLSCipherNames.filter (fun insecureName => insecureName = cipher)).map
      (fun _ => TLSWarning.insecureCipher cipher))

/-- The cipher-discard condition of `GetTLSOptionOverrideFuncs` (`main.go`
line 487): min and max labels both "TLS13" and a non-empty cipher list. -/
def ciphersDiscarded (options : TLSOptions) : Bool :=
  decide (options.TLSMinVersion = "TLS13") &&
  decide (options.TLSMaxVersion = "TLS13") &&
  decide (options.TLSCipherSuites ≠ "")

/-- `GetTLSOptionOverrideFuncs` from `main.go`: build the ordered TLS mutator
list from the options, or fail; the second component collects the warning
log lines emitted during the call. -/
def GetTLSOptionOverrideFuncs (options : TLSOptions) :
    Except TLSError (List TLSMutator) × List TLSWarning :=
  match GetTLSVersion options.TLSMinVersion with
  | Except.error e => (Except.error e, [])
  | Except.ok tlsMinVersion =>
    match GetTLSVersion options.TLSMaxVersion with
    | Except.error e => (Except.error e, [])
    | Except.ok tlsMaxVersion =>
      if rangeInvertedGuard tlsMinVersion tlsMaxVersion then
        (Except.error (TLSError.rangeInverted options.TLSMinVersion options.TLSMaxVersion), [])
      else
        let base := [TLSMutator.setMinVersion tlsMinVersion,
                     TLSMutator.setMaxVersion tlsMaxVersion]
        let cipherStr := if ciphersDiscarded options then "" else options.TLSCipherSuites
        let warns0 : List TLSWarning :=
          if ciphersDiscarded options then [TLSWarning.ciphersIgnoredForTLS13] else []
        if cipherStr = "" then
          (Except.ok base, warns0)
        else
          let tlsCipherSuiteNames := splitOnComma cipherStr
          match TLSCipherSuites tlsCipherSuiteNames with
          | Except.error e => (Except.error e, warns0)
          | Except.ok suites =>
            (Except.ok (base ++ [TLSMutator.setCipherSuites suites]),
             warns0 ++ insecureWarnings tlsCipherSuiteNames)

/-- `true` when the builder returns a mutator list, `false` when it errors. -/
def tlsBuildSucceeds (options : TLSOptions) : Bool :=
  match (GetTLSOptionOverrideFuncs options).1 with
  | Except.ok _ => true
  | Except.error _ => false

/-- Stated from the spec's words for comparison with the code: "builder
succeeds iff resolved min ≤ resolved max" over the supported labels. -/
def specResolvedMinLeMax (minLabel maxLabel : String) : Bool :=
  match GetTLSVersion minLabel, GetTLSVersion maxLabel with
  | Except.ok vmin, Except.ok vmax => decide (vmin ≤ vmax)
  | _, _ => false

/-- Count occurrences of an element in a list. -/
def countEq {α : Type} [DecidableEq α] (a : α) : List α → Nat
  | [] => 0
  | b :: l => (if b = a then 1 else 0) + countEq a l

/-- One observable event of the `waitForAPIs` loop: a discovery attempt
(with its 0-based index and outcome) or a fixed sleep in seconds. -/
inductive GateEvent where
  | attempt (idx : Nat) (success : Bool)
  | sleep (seconds : Nat)
deriving DecidableEq

/-- `waitForAPIs` from `main.go`, fuel-indexed: the discovery collaborator is
a function from the 0-based attempt index to its outcome; the result is the
event trace together with `true` when the loop returned (broke out on a
successful attempt) and `false` when the fuel ran out while it was still
retrying.  Each failed attempt is followed by `time.Sleep(time.Second * 10)`
and an unconditional retry; there is no attempt bound in the source. -/
def waitForAPIs (discover : Nat → Bool) : Nat → Nat → List GateEvent × Bool
  | 0, _ => ([], false)
  | fuel + 1, k =>
    if discover k then ([GateEvent.attempt k true], true)
    else
      let rest := waitForAPIs discover fuel (k + 1)
      (GateEvent.attempt k false :: GateEvent.sleep 10 :: rest.1, rest.2)

/-- The trace `waitForAPIs` produces when attempts `s, s+1, ..., s+n-1` fail
and attempt `s+n` succeeds. -/
def expectedGateTrace (s : Nat) : Nat → List GateEvent
  | 0 => [GateEvent.attempt s true]
  | n + 1 => GateEvent.attempt s false :: GateEvent.sleep 10 :: expectedGateTrace (s + 1) n

/-- Number of discovery attempts in a gate trace. -/
def gateAttempts : List GateEvent → Nat
  | [] => 0
  | GateEvent.attempt _ _ :: tr => 1 + gateAttempts tr
  | GateEvent.sleep _ :: tr => gateAttempts tr

/-- Total seconds slept in a gate trace. -/
def gateSleeps : List GateEvent → Nat
  | [] => 0
  | GateEvent.attempt _ _ :: tr => gateSleeps tr
  | GateEvent.sleep s :: tr => s + gateSleeps tr

/-- Outcome of running a registration sequence: all registrations completed,
or the process exited with the given status code (`os.Exit(1)` on the first
failing registration). -/
inductive RegistryOutcome where
  | completed
  | exitedWith (code : Nat)
deriving DecidableEq

/-- Run a registration sequence in order: each name is attempted; on the
first failing one the process exits with status 1 and nothing further is
attempted.  Returns the list of attempted names and the outcome. -/
def runRegistrations (fails : String → Bool) : List String → List String × RegistryOutcome
  | [] => ([], RegistryOutcome.completed)
  | n :: rest =>
    if fails n then ([n], RegistryOutcome.exitedWith 1)
    else
      let r := runRegistrations fails rest
      (n :: r.1, r.2)

/-- The reconciler registration sequence of `setupReconcilers` in `main.go`,
in source order, each entry named as in its error-log line. -/
def reconcilerNames : List String :=
  ["Metal3MachineReconciler", "Metal3ClusterReconciler", "Metal3DataTemplateReconciler",
   "Metal3DataReconciler", "Metal3LabelSyncReconciler", "Metal3MachineTemplateReconciler",
   "Metal3Remediation"]

/-- The webhook registration sequence of `setupWebhooks` in `main.go`,
in source order, each entry named as in its error-log line. -/
def webhookNames : List String :=
  ["Metal3Cluster", "Metal3Machine", "Metal3MachineTemplate", "Metal3DataTemplate",
   "Metal3Data", "Metal3DataClaim", "Metal3Remediation", "Metal3RemediationTemplate"]

/-- `setupReconcilers` from `main.go`, abstracted over which underlying
`SetupWithManager` calls fail. -/
def setupReconcilers (fails : String → Bool) : List String × RegistryOutcome :=
  runRegistrations fails reconcilerNames

/-- `setupWebhooks` from `main.go`, abstracted over which underlying
`SetupWebhookWithManager` calls fail. -/
def setupWebhooks (fails : String → Bool) : List String × RegistryOutcome :=
  runRegistrations fails webhookNames

/-- The startup inputs of `main` relevant to the TLS policy and the
readiness gate.  `waitForMetal3Controller` is the package-level boolean
switch (initialised to `false` in `main.go` and bound to no flag); the TLS
fields carry the flag defaults of `initFlags`. -/
structure Flags where
  waitForMetal3Controller : Bool
  tlsMinVersion : String
  tlsMaxVersion : String
  tlsCipherSuites : String
deriving DecidableEq

/-- The default startup values: switch off, `--tls-min-version` defaults to
"TLS12", `--tls-max-version` to "TLS13", `--tls-cipher-suites` to "". -/
def defaultFlags : Flags :=
  { waitForMetal3Controller := false, tlsMinVersion := "TLS12",
    tlsMaxVersion := "TLS13", tlsCipherSuites := "" }

/-- The `tlsOptions` value `main` passes to `GetTLSOptionOverrideFuncs`. -/
def tlsOptionsOfFlags (fl : Flags) : TLSOptions :=
  { TLSMaxVersion := fl.tlsMaxVersion, TLSMinVersion := fl.tlsMinVersion,
    TLSCipherSuites := fl.tlsCipherSuites }

/-- The discovery-relevant control flow of `main`: build the TLS policy
(exiting on error, before any discovery); then, only when the
`waitForMetal3Controller` switch is set, run `waitForAPIs`.  Result: how
many discovery attempts were performed and whether the run loop was
reached within the given fuel. -/
def mainReachesRunLoop (fl : Flags) (discover : Nat → Bool) (gateFuel : Nat) : Nat × Bool :=
  match (GetTLSOptionOverrideFuncs (tlsOptionsOfFlags fl)).1 with
  | Except.error _ => (0, false)
  | Except.ok _ =>
    if fl.waitForMetal3Controller then
      let res := waitForAPIs discover gateFuel 0
      (gateAttempts res.1, res.2)
    else (0, true)

/-! ### Helper lemmas: readiness gate -/

theorem waitForAPIs_eq_expected (discover : Nat → Bool) :
    ∀ (n s fuel : Nat), (∀ k, k < n → discover (s + k) = false) →
      discover (s + n) = true → n < fuel →
      waitForAPIs discover fuel s = (expectedGateTrace s n, true) := by
  intro n
  induction n with
  | zero =>
    intro s fuel _ hsucc hfuel
    match fuel, hfuel with
    | fuel + 1, _ =>
      simp only [waitForAPIs, Nat.add_zero] at hsucc ⊢
      rw [hsucc]
      rfl
  | succ n ih =>
    intro s fuel hfail hsucc hfuel
    match fuel, hfuel with
    | fuel + 1, hfuel =>
      have h0 : discover s = false := by
        have := hfail 0 (Nat.succ_pos n)
        simpa using this
      simp only [waitForAPIs, h0]
      have hrest : waitForAPIs discover fuel (s + 1) = (expectedGateTrace (s + 1) n, true) := by
        apply ih
        · intro k hk
          have := hfail (k + 1) (Nat.succ_lt_succ hk)
          simpa [Nat.add_comm, Nat.add_assoc, Nat.add_left_comm] using this
        · simpa [Nat.add_comm, Nat.add_assoc, Nat.add_left_comm] using hsucc
        · exact Nat.lt_of_succ_lt_succ hfuel
      rw [hrest]
      rfl

theorem gateAttempts_expected : ∀ (n s : Nat), gateAttempts (expectedGateTrace s n) = n + 1 := by
  intro n
  induction n with
  | zero => intro s; rfl
  | succ n ih =>
    intro s
    simp only [expectedGateTrace, gateAttempts, ih (s + 1)]
    omega

theorem gateSleeps_expected : ∀ (n s : Nat), gateSleeps (expectedGateTrace s n) = 10 * n := by
  intro n
  induction n with
  | zero => intro s; rfl
  | succ n ih =>
    intro s
    simp only [expectedGateTrace, gateSleeps, ih (s + 1)]
    omega

theorem waitForAPIs_never_returns (discover : Nat → Bool)
    (hfail : ∀ k, discover k = false) :
    ∀ (fuel s : Nat), (waitForAPIs discover fuel s).2 = false := by
  intro fuel
  induction fuel with
  | zero => intro s; rfl
  | succ fuel ih =>
    intro s
    simp only [waitForAPIs, hfail s]
    exact ih (s + 1)

/-! ### Helper lemmas: fail-fast registration -/

theorem runRegistrations_fail_fast (fails : String → Bool) :
    ∀ (names : List String) (i : Nat) (hi : i < names.length),
      (∀ j (hj : j < i), fails (names.get ⟨j, Nat.lt_trans hj hi⟩) = false) →
      fails (names.get ⟨i, hi⟩) = true →
      runRegistrations fails names = (names.take (i + 1), RegistryOutcome.exitedWith 1) := by
  intro names
  induction names with
  | nil => intro i hi; exact absurd hi (Nat.not_lt_zero i)
  | cons n rest ih =>
    intro i hi hbefore hfail
    cases i with
    | zero =>
      simp only [List.get] at hfail
      simp [runRegistrations, hfail]
    | succ i =>
      have hn : fails n = false := by
        have := hbefore 0 (Nat.succ_pos i)
        simpa using this
      have hi' : i < rest.length := Nat.lt_of_succ_lt_succ hi
      have hrest : runRegistrations fails rest = (rest.take (i + 1), RegistryOutcome.exitedWith 1) := by
        apply ih i hi'
        · intro j hj
          have := hbefore (j + 1) (Nat.succ_lt_succ hj)
          simpa using this
        · simpa using hfail
      simp [runRegistrations, hn, hrest, List.take_succ_cons]

/-! ### Helper lemmas: TLS version resolution -/

theorem getTLSVersion_ok_cases {s : String} {v : Nat} (h : GetTLSVersion s = Except.ok v) :
    (s = "TLS12" ∧ v = VersionTLS12) ∨ (s = "TLS13" ∧ v = VersionTLS13) := by
  unfold GetTLSVersion at h
  by_cases h12 : s = "TLS12"
  · simp [h12] at h
    exact Or.inl ⟨h12, h.symm⟩
  · by_cases h13 : s = "TLS13"
    · simp [h12, h13] at h
      exact Or.inr ⟨h13, h.symm⟩
    · simp [h12, h13] at h

theorem getTLSVersion_not_supported {s : String} (h : s ∉ tlsSupportedVersions) :
    GetTLSVersion s = Except.error (TLSError.invalidTLSVersion s) := by
  simp [tlsSupportedVersions] at h
  simp [GetTLSVersion, h.1, h.2]

theorem getTLSVersion_supported_ok {s : String} (h : s ∈ tlsSupportedVersions) :
    GetTLSVersion s = Except.ok VersionTLS12 ∨ GetTLSVersion s = Except.ok VersionTLS13 := by
  simp [tlsSupportedVersions] at h
  rcases h with h | h
  · subst h; exact Or.inl rfl
  · subst h; exact Or.inr rfl

/-! ### Helper lemmas: cipher resolution -/

theorem tlsCipherSuites_error_mem :
    ∀ (names : List String) (e : TLSError), TLSCipherSuites names = Except.error e →
      ∃ n, n ∈ names ∧ lookupCipher n = none ∧ e = TLSError.unknownCipherSuite n := by
  intro names
  induction names with
  | nil =>
    intro e h
    simp [TLSCipherSuites] at h
  | cons n rest ih =>
    intro e h
    simp only [TLSCipherSuites] at h
    cases hl : lookupCipher n with
    | none =>
      rw [hl] at h
      simp at h
      exact ⟨n, List.mem_cons_self n rest, hl, h.symm⟩
    | some v =>
      rw [hl] at h
      cases hr : TLSCipherSuites rest with
      | error e' =>
        rw [hr] at h
        simp at h
        obtain ⟨m, hm, hlk, he⟩ := ih e' hr
        exact ⟨m, List.mem_cons_of_mem n hm, hlk, h ▸ he⟩
      | ok vs =>
        rw [hr] at h
        simp at h

theorem tlsCipherSuites_ok_of_resolvable :
    ∀ (names : List String), (∀ n, n ∈ names → (lookupCipher n).isSome) →
      ∃ vs, TLSCipherSuites names = Except.ok vs := by
  intro names
  induction names with
  | nil => intro _; exact ⟨[], rfl⟩
  | cons n rest ih =>
    intro hall
    have hn := hall n (List.mem_cons_self n rest)
    cases hl : lookupCipher n with
    | none => rw [hl] at hn; simp at hn
    | some v =>
      obtain ⟨vs, hvs⟩ := ih (fun m hm => hall m (List.mem_cons_of_mem n hm))
      refine ⟨v :: vs, ?_⟩
      simp only [TLSCipherSuites]
      rw [hl, hvs]

/-! ### Helper lemmas: counting warnings -/

theorem countEq_append {α : Type} [DecidableEq α] (a : α) :
    ∀ (l₁ l₂ : List α), countEq a (l₁ ++ l₂) = countEq a l₁ + countEq a l₂ := by
  intro l₁ l₂
  induction l₁ with
  | nil => simp [countEq]
  | cons b l ih => simp [countEq, ih]; omega

theorem countEq_nodup {α : Type} [DecidableEq α] :
    ∀ (l : List α), l.Nodup → ∀ a, countEq a l = if a ∈ l then 1 else 0 := by
  intro l
  induction l with
  | nil => intro _ a; simp [countEq]
  | cons b l ih =>
    intro hnd a
    have hb : b ∉ l := (List.nodup_cons.mp hnd).1
    have hl : l.Nodup := (List.nodup_cons.mp hnd).2
    by_cases hab : b = a
    · subst hab
      have : countEq b l = 0 := by
        rw [ih hl b]
        simp [hb]
      simp [countEq, this]
    · have := ih hl a
      have hmem : a ∈ b :: l ↔ a ∈ l := by
        constructor
        · intro h
          rcases List.mem_cons.mp h with h | h
          · exact absurd h.symm hab
          · exact h
        · exact List.mem_cons_of_mem b
      simp only [countEq, if_neg hab, Nat.zero_add, this]
      simp [hmem]

theorem countEq_map_const {α β : Type} [DecidableEq β] (w x : β) :
    ∀ (l : List α), countEq x (l.map fun _ => w) = if w = x then l.length else 0 := by
  intro l
  induction l with
  | nil => simp [countEq]
  | cons b l ih =>
    simp only [List.map_cons, countEq, ih]
    by_cases hwx : w = x
    · simp [hwx]
      omega
    · simp [hwx]

theorem length_filter_eq_countEq {α : Type} [DecidableEq α] (a : α) :
    ∀ (l : List α), (l.filter fun b => b = a).length = countEq a l := by
  intro l
  induction l with
  | nil => rfl
  | cons b l ih =>
    by_cases hba : b = a
    · simp [List.filter, hba, countEq, ih]
      omega
    · simp [List.filter, hba, countEq, ih]

theorem insecure_names_nodup : InsecureTLSCipherNames.Nodup := by decide

theorem insecureWarnings_countEq (n : String) :
    ∀ (names : List String),
      countEq (TLSWarning.insecureCipher n) (insecureWarnings names) =
        if n ∈ InsecureTLSCipherNames then countEq n names else 0 := by
  intro names
  induction names with
  | nil =>
    simp [insecureWarnings, countEq]
  | cons c rest ih =>
    have hblock :
        countEq (TLSWarning.insecureCipher n)
            ((InsecureTLSCipherNames.filter (fun insecureName => insecureName = c)).map
              (fun _ => TLSWarning.insecureCipher c)) =
          if c = n then countEq c InsecureTLSCipherNames else 0 := by
      rw [countEq_map_const]
      rw [length_filter_eq_countEq]
      by_cases hcn : c = n
      · simp [hcn]
      · simp [hcn, fun h : TLSWarning.insecureCipher c = TLSWarning.insecureCipher n =>
          hcn (TLSWarning.insecureCipher.inj h)]
    have hstep : insecureWarnings (c :: rest) =
        ((InsecureTLSCipherNames.filter (fun insecureName => insecureName = c)).map
          (fun _ => TLSWarning.insecureCipher c)) ++ insecureWarnings rest := by
      simp [insecureWarnings]
    rw [hstep, countEq_append, hblock, ih]
    by_cases hcn : c = n
    · subst hcn
      rw [countEq_nodup InsecureTLSCipherNames insecure_names_nodup c]
      by_cases hmem : c ∈ InsecureTLSCipherNames
      · simp [hmem, countEq]
      · simp [hmem, countEq]
    · by_cases hmem : n ∈ InsecureTLSCipherNames
      · simp [hcn, hmem, countEq]
      · simp [hcn, hmem, countEq]

theorem getTLSVersion_error_shape {s : String} {e : TLSError}
    (h : GetTLSVersion s = Except.error e) : e = TLSError.invalidTLSVersion s := by
  unfold GetTLSVersion at h
  by_cases h12 : s = "TLS12"
  · simp [h12] at h
  · by_cases h13 : s = "TLS13"
    · simp [h12, h13] at h
    · simp [h12, h13] at h
      exact h.symm

theorem tlsCipherSuites_ok_resolvable :
    ∀ (names : List String) (vs : List Nat), TLSCipherSuites names = Except.ok vs →
      ∀ n, n ∈ names → (lookupCipher n).isSome := by
  intro names
  induction names with
  | nil => intro vs _ n hn; simp at hn
  | cons m rest ih =>
    intro vs h n hn
    simp only [TLSCipherSuites] at h
    cases hl : lookupCipher m with
    | none => rw [hl] at h; simp at h
    | some v =>
      rw [hl] at h
      cases hr : TLSCipherSuites rest with
      | error e => rw [hr] at h; simp at h
      | ok ws =>
        rcases List.mem_cons.mp hn with hnm | hnrest
        · subst hnm; simp [hl]
        · exact ih ws hr n hnrest

theorem getTLS_ok_shape {options : TLSOptions} {ms : List TLSMutator} {ws : List TLSWarning}
    (h : GetTLSOptionOverrideFuncs options = (Except.ok ms, ws)) :
    ∃ vmin vmax,
      GetTLSVersion options.TLSMinVersion = Except.ok vmin ∧
      GetTLSVersion options.TLSMaxVersion = Except.ok vmax ∧
      rangeInvertedGuard vmin vmax = false ∧
      ((ms = [TLSMutator.setMinVersion vmin, TLSMutator.setMaxVersion vmax] ∧
        ws = if ciphersDiscarded options then [TLSWarning.ciphersIgnoredForTLS13] else []) ∨
       (∃ suites,
         TLSCipherSuites (splitOnComma options.TLSCipherSuites) = Except.ok suites ∧
         ciphersDiscarded options = false ∧ options.TLSCipherSuites ≠ "" ∧
         ms = [TLSMutator.setMinVersion vmin, TLSMutator.setMaxVersion vmax,
               TLSMutator.setCipherSuites suites] ∧
         ws = insecureWarnings (splitOnComma options.TLSCipherSuites))) := by
  simp only [GetTLSOptionOverrideFuncs] at h
  cases hmin : GetTLSVersion options.TLSMinVersion with
  | error e => rw [hmin] at h; simp at h
  | ok vmin =>
    rw [hmin] at h
    cases hmax : GetTLSVersion options.TLSMaxVersion with
    | error e => rw [hmax] at h; simp at h
    | ok vmax =>
      rw [hmax] at h
      dsimp only at h
      by_cases hguard : rangeInvertedGuard vmin vmax = true
      · rw [if_pos hguard] at h; simp at h
      · have hguard' : rangeInvertedGuard vmin vmax = false := by
          simpa using hguard
        rw [if_neg hguard] at h
        refine ⟨vmin, vmax, rfl, rfl, hguard', ?_⟩
        by_cases hdisc : ciphersDiscarded options = true
        · simp only [hdisc, if_pos, if_true] at h ⊢
          simp at h
          exact Or.inl ⟨h.1.symm, h.2.symm⟩
        · have hdisc' : ciphersDiscarded options = false := by simpa using hdisc
          simp only [hdisc', if_false, Bool.false_eq_true] at h ⊢
          by_cases hcs : options.TLSCipherSuites = ""
          · simp only [hcs, if_pos] at h
            simp at h
            exact Or.inl ⟨h.1.symm, by simp [h.2.symm]⟩
          · rw [if_neg hcs] at h
            cases hts : TLSCipherSuites (splitOnComma options.TLSCipherSuites) with
            | error e => rw [hts] at h; simp at h
            | ok suites =>
              rw [hts] at h
              simp at h
              exact Or.inr ⟨suites, rfl, trivial, hcs, h.1.symm, by simp [h.2.symm]⟩

theorem getTLS_range_error_of_guard_true {options : TLSOptions} {vmin vmax : Nat}
    (hmin : GetTLSVersion options.TLSMinVersion = Except.ok vmin)
    (hmax : GetTLSVersion options.TLSMaxVersion = Except.ok vmax)
    (hguard : rangeInvertedGuard vmin vmax = true) :
    GetTLSOptionOverrideFuncs options =
      (Except.error (TLSError.rangeInverted options.TLSMinVersion options.TLSMaxVersion), []) := by
  simp only [GetTLSOptionOverrideFuncs]
  rw [hmin, hmax]
  dsimp only
  rw [if_pos hguard]

theorem getTLS_no_range_error_of_guard_false {options : TLSOptions} {vmin vmax : Nat}
    (hmin : GetTLSVersion options.TLSMinVersion = Except.ok vmin)
    (hmax : GetTLSVersion options.TLSMaxVersion = Except.ok vmax)
    (hguard : rangeInvertedGuard vmin vmax = false) :
    ∀ a b, (GetTLSOptionOverrideFuncs options).1 ≠ Except.error (TLSError.rangeInverted a b) := by
  intro a b hres
  simp only [GetTLSOptionOverrideFuncs] at hres
  rw [hmin, hmax] at hres
  dsimp only at hres
  rw [if_neg (by simp [hguard])] at hres
  by_cases hcs : (if ciphersDiscarded options then "" else options.TLSCipherSuites) = ""
  · rw [if_pos hcs] at hres
    simp at hres
  · rw [if_neg hcs] at hres
    cases hts : TLSCipherSuites (splitOnComma (if ciphersDiscarded options then "" else options.TLSCipherSuites)) with
    | error e =>
      rw [hts] at hres
      simp at hres
      obtain ⟨n, _, _, he⟩ := tlsCipherSuites_error_mem _ e hts
      rw [he] at hres
      exact TLSError.noConfusion hres
    | ok suites =>
      rw [hts] at hres
      simp at hres

theorem getTLS_cipher_branch {options : TLSOptions} {vmin vmax : Nat}
    (hmin : GetTLSVersion options.TLSMinVersion = Except.ok vmin)
    (hmax : GetTLSVersion options.TLSMaxVersion = Except.ok vmax)
    (hguard : rangeInvertedGuard vmin vmax = false)
    (hdisc : ciphersDiscarded options = false)
    (hcs : options.TLSCipherSuites ≠ "") :
    GetTLSOptionOverrideFuncs options =
      match TLSCipherSuites (splitOnComma options.TLSCipherSuites) with
      | Except.error e => (Except.error e, [])
      | Except.ok suites =>
        (Except.ok [TLSMutator.setMinVersion vmin, TLSMutator.setMaxVersion vmax,
                    TLSMutator.setCipherSuites suites],
         insecureWarnings (splitOnComma options.TLSCipherSuites)) := by
  simp only [GetTLSOptionOverrideFuncs]
  rw [hmin, hmax]
  dsimp only
  rw [if_neg (by simp [hguard])]
  rw [hdisc]
  simp only [if_false, Bool.false_eq_true]
  rw [if_neg hcs]
  cases hts : TLSCipherSuites (splitOnComma options.TLSCipherSuites) with
  | error e => rfl
  | ok suites => rfl

/-! ### Claim theorems -/

/-- Claim C1: for every (min, max) pair of version labels drawn from the two
supported labels TLS12 and TLS13, `GetTLSOptionOverrideFuncs` succeeds iff
the resolved min version is ≤ the resolved max version; in particular
(TLS13, TLS12) fails with the range-inverted error and (TLS12, TLS13)
succeeds. -/
theorem claim_C1_supported_pairs (minLabel maxLabel : String)
    (hmin : minLabel ∈ tlsSupportedVersions) (hmax : maxLabel ∈ tlsSupportedVersions) :
    (tlsBuildSucceeds
        { TLSMaxVersion := maxLabel, TLSMinVersion := minLabel, TLSCipherSuites := "" } =
      specResolvedMinLeMax minLabel maxLabel)
    ∧ (GetTLSOptionOverrideFuncs
        { TLSMaxVersion := "TLS12", TLSMinVersion := "TLS13", TLSCipherSuites := "" }).1 =
      Except.error (TLSError.rangeInverted "TLS13" "TLS12")
    ∧ tlsBuildSucceeds
        { TLSMaxVersion := "TLS13", TLSMinVersion := "TLS12", TLSCipherSuites := "" } = true := by
  refine ⟨?_, rfl, rfl⟩
  simp only [tlsSupportedVersions, List.mem_cons, List.not_mem_nil, or_false] at hmin hmax
  rcases hmin with h1 | h1 <;> rcases hmax with h2 | h2 <;> (subst h1; subst h2; rfl)

theorem claim_C1_supported_pairs_witness :
    "TLS12" ∈ tlsSupportedVersions ∧ "TLS13" ∈ tlsSupportedVersions ∧
    tlsBuildSucceeds
        { TLSMaxVersion := "TLS13", TLSMinVersion := "TLS12", TLSCipherSuites := "" } =
      specResolvedMinLeMax "TLS12" "TLS13" :=
  ⟨by simp [tlsSupportedVersions], by simp [tlsSupportedVersions],
   (claim_C1_supported_pairs "TLS12" "TLS13" (by simp [tlsSupportedVersions])
      (by simp [tlsSupportedVersions])).1⟩

/-- Claim C2: for every `TLSOptions` with min version TLS13, max version
TLS13 and a non-empty cipher-suite string, `GetTLSOptionOverrideFuncs`
succeeds, the mutator list contains no cipher-suite mutator (the cipher
list is discarded), and a warning is recorded. -/
theorem claim_C2_tls13_ciphers_discarded (s : String) (h : s ≠ "") :
    GetTLSOptionOverrideFuncs
        { TLSMaxVersion := "TLS13", TLSMinVersion := "TLS13", TLSCipherSuites := s } =
      (Except.ok [TLSMutator.setMinVersion VersionTLS13, TLSMutator.setMaxVersion VersionTLS13],
       [TLSWarning.ciphersIgnoredForTLS13]) := by
  have hd : ciphersDiscarded
      { TLSMaxVersion := "TLS13", TLSMinVersion := "TLS13", TLSCipherSuites := s } = true := by
    simp [ciphersDiscarded, h]
  simp only [GetTLSOptionOverrideFuncs, hd]
  rfl

theorem claim_C2_tls13_ciphers_discarded_witness :
    GetTLSOptionOverrideFuncs
        { TLSMaxVersion := "TLS13", TLSMinVersion := "TLS13",
          TLSCipherSuites := "TLS_AES_128_GCM_SHA256" } =
      (Except.ok [TLSMutator.setMinVersion VersionTLS13, TLSMutator.setMaxVersion VersionTLS13],
       [TLSWarning.ciphersIgnoredForTLS13]) :=
  claim_C2_tls13_ciphers_discarded "TLS_AES_128_GCM_SHA256" (by simp)

/-- Claim C3: the `waitForAPIs` loop attempts discovery, returns success
immediately on a successful attempt, and on failure sleeps a fixed 10
seconds and retries with no attempt bound: for a discovery stub failing on
the first n attempts and succeeding on attempt n+1, the gate returns after
exactly n+1 attempts with the fixed delay between consecutive attempts
(10n seconds total), and it never returns if no attempt ever succeeds. -/
theorem claim_C3_gate_retries (discover : Nat → Bool) (n : Nat) :
    ((∀ k, k < n → discover k = false) → discover n = true →
      ∀ fuel, n < fuel → waitForAPIs discover fuel 0 = (expectedGateTrace 0 n, true))
    ∧ gateAttempts (expectedGateTrace 0 n) = n + 1
    ∧ gateSleeps (expectedGateTrace 0 n) = 10 * n
    ∧ ((∀ k, discover k = false) → ∀ fuel, (waitForAPIs discover fuel 0).2 = false) := by
  refine ⟨?_, gateAttempts_expected n 0, gateSleeps_expected n 0, ?_⟩
  · intro hfail hsucc fuel hfuel
    apply waitForAPIs_eq_expected discover n 0 fuel
    · intro k hk
      simpa using hfail k hk
    · simpa using hsucc
    · exact hfuel
  · intro hfail fuel
    exact waitForAPIs_never_returns discover hfail fuel 0

theorem claim_C3_gate_retries_witness :
    waitForAPIs (fun k => decide (k = 2)) 4 0 =
      ([GateEvent.attempt 0 false, GateEvent.sleep 10, GateEvent.attempt 1 false,
        GateEvent.sleep 10, GateEvent.attempt 2 true], true)
    ∧ (waitForAPIs (fun _ => false) 6 0).2 = false := by
  constructor
  · have h := (claim_C3_gate_retries (fun k => decide (k = 2)) 2).1
      (by intro k hk; interval_cases k <;> rfl) (by decide) 4 (by omega)
    simpa [expectedGateTrace] using h
  · exact (claim_C3_gate_retries (fun _ => false) 0).2.2.2 (fun k => rfl) 6

/-- Claim C4: for every position i in the fixed registration sequence of the
reconciler registry and of the webhook registry, if the i-th registration
fails then the bootstrap exits with status 1 and no registration after the
i-th is attempted in that registry (the attempted list is exactly the first
i+1 names): no partial-success mode. -/
theorem claim_C4_fail_fast (fails : String → Bool) (i : Nat) :
    (∀ hi : i < reconcilerNames.length,
      (∀ j, ∀ hj : j < i, fails (reconcilerNames.get ⟨j, Nat.lt_trans hj hi⟩) = false) →
      fails (reconcilerNames.get ⟨i, hi⟩) = true →
      setupReconcilers fails = (reconcilerNames.take (i + 1), RegistryOutcome.exitedWith 1))
    ∧ (∀ hi : i < webhookNames.length,
      (∀ j, ∀ hj : j < i, fails (webhookNames.get ⟨j, Nat.lt_trans hj hi⟩) = false) →
      fails (webhookNames.get ⟨i, hi⟩) = true →
      setupWebhooks fails = (webhookNames.take (i + 1), RegistryOutcome.exitedWith 1)) := by
  constructor
  · intro hi hb hf
    exact runRegistrations_fail_fast fails reconcilerNames i hi hb hf
  · intro hi hb hf
    exact runRegistrations_fail_fast fails webhookNames i hi hb hf

theorem claim_C4_fail_fast_witness :
    setupReconcilers (fun s => decide (s = "Metal3DataReconciler")) =
      (["Metal3MachineReconciler", "Metal3ClusterReconciler", "Metal3DataTemplateReconciler",
        "Metal3DataReconciler"], RegistryOutcome.exitedWith 1)
    ∧ setupWebhooks (fun s => decide (s = "Metal3Machine")) =
      (["Metal3Cluster", "Metal3Machine"], RegistryOutcome.exitedWith 1) := by
  constructor
  · have h := (claim_C4_fail_fast (fun s => decide (s = "Metal3DataReconciler")) 3).1
      (by decide) (by intro j hj; interval_cases j <;> rfl) (by rfl)
    simpa [reconcilerNames] using h
  · have h := (claim_C4_fail_fast (fun s => decide (s = "Metal3Machine")) 1).2
      (by decide) (by intro j hj; interval_cases j; rfl) (by rfl)
    simpa [webhookNames] using h

/-- Claim C5: `GetTLSOptionOverrideFuncs` fails with the range-inverted
error exactly when the resolved min version is strictly greater than the
resolved max version, and a max version resolving to 0 (no upper bound)
never triggers the range guard for any min version. -/
theorem claim_C5_range_error_iff (options : TLSOptions) (vmin vmax : Nat)
    (hmin : GetTLSVersion options.TLSMinVersion = Except.ok vmin)
    (hmax : GetTLSVersion options.TLSMaxVersion = Except.ok vmax) :
    ((GetTLSOptionOverrideFuncs options).1 =
        Except.error (TLSError.rangeInverted options.TLSMinVersion options.TLSMaxVersion) ↔
      vmax < vmin)
    ∧ (∀ v, rangeInvertedGuard v 0 = false) := by
  refine ⟨⟨?_, ?_⟩, fun v => rfl⟩
  · intro hres
    by_contra hnot
    have hle : vmin ≤ vmax := Nat.le_of_not_lt hnot
    have hguard : rangeInvertedGuard vmin vmax = false := by
      simp only [rangeInvertedGuard, Bool.and_eq_false_iff]
      right
      simpa using Nat.not_lt_of_le hle
    exact getTLS_no_range_error_of_guard_false hmin hmax hguard _ _ hres
  · intro hlt
    have hvz : vmax ≠ 0 := by
      rcases getTLSVersion_ok_cases hmax with ⟨_, hv⟩ | ⟨_, hv⟩ <;>
        simp [hv, VersionTLS12, VersionTLS13]
    have hguard : rangeInvertedGuard vmin vmax = true := by
      simp only [rangeInvertedGuard, Bool.and_eq_true]
      exact ⟨by simpa using hvz, by simpa using hlt⟩
    rw [getTLS_range_error_of_guard_true hmin hmax hguard]

theorem claim_C5_range_error_iff_witness :
    (GetTLSOptionOverrideFuncs
        { TLSMaxVersion := "TLS12", TLSMinVersion := "TLS13", TLSCipherSuites := "" }).1 =
      Except.error (TLSError.rangeInverted "TLS13" "TLS12") ↔ VersionTLS12 < VersionTLS13 :=
  (claim_C5_range_error_iff
    { TLSMaxVersion := "TLS12", TLSMinVersion := "TLS13", TLSCipherSuites := "" }
    VersionTLS13 VersionTLS12 rfl rfl).1

/-- Claim C6: the readiness gate is invoked iff the `waitForMetal3Controller`
opt-in boolean is set; the default is off, in which case the gate is
skipped and a startup with default flag values reaches the run loop with
zero discovery attempts and without blocking on discovery. -/
theorem claim_C6_gate_iff_switch :
    (∀ (discover : Nat → Bool) (fuel : Nat),
      mainReachesRunLoop defaultFlags discover fuel = (0, true))
    ∧ defaultFlags.waitForMetal3Controller = false
    ∧ (∀ (fl : Flags) (discover : Nat → Bool) (fuel : Nat),
        fl.waitForMetal3Controller = false → (mainReachesRunLoop fl discover fuel).1 = 0)
    ∧ (∀ (fl : Flags) (discover : Nat → Bool) (fuel : Nat),
        0 < fuel → fl.waitForMetal3Controller = true →
        tlsBuildSucceeds (tlsOptionsOfFlags fl) = true →
        0 < (mainReachesRunLoop fl discover fuel).1) := by
  refine ⟨fun _ _ => rfl, rfl, ?_, ?_⟩
  · intro fl discover fuel hsw
    unfold mainReachesRunLoop
    cases hres : (GetTLSOptionOverrideFuncs (tlsOptionsOfFlags fl)).1 with
    | error e => rfl
    | ok ms => simp [hsw]
  · intro fl discover fuel hfuel hsw htls
    unfold mainReachesRunLoop
    unfold tlsBuildSucceeds at htls
    cases hres : (GetTLSOptionOverrideFuncs (tlsOptionsOfFlags fl)).1 with
    | error e => rw [hres] at htls; simp at htls
    | ok ms =>
      simp only [hsw, if_true]
      match fuel, hfuel with
      | fuel + 1, _ =>
        cases hd : discover 0 with
        | true => simp [waitForAPIs, hd, gateAttempts]
        | false =>
          simp only [waitForAPIs, hd, gateAttempts]
          omega

theorem claim_C6_gate_iff_switch_witness :
    mainReachesRunLoop defaultFlags (fun _ => false) 5 = (0, true)
    ∧ 0 < (mainReachesRunLoop
        { waitForMetal3Controller := true, tlsMinVersion := "TLS12",
          tlsMaxVersion := "TLS13", tlsCipherSuites := "" } (fun _ => true) 3).1 :=
  ⟨claim_C6_gate_iff_switch.1 (fun _ => false) 5,
   claim_C6_gate_iff_switch.2.2.2
     { waitForMetal3Controller := true, tlsMinVersion := "TLS12",
       tlsMaxVersion := "TLS13", tlsCipherSuites := "" }
     (fun _ => true) 3 (by omega) rfl rfl⟩

/-- Claim C7: for every `TLSOptions` whose min-version or max-version label
is not one of the two supported labels, `GetTLSOptionOverrideFuncs` fails
with the invalid-TLS-version error and returns no mutators (the nil list
alongside the error). -/
theorem claim_C7_invalid_label (options : TLSOptions)
    (h : options.TLSMinVersion ∉ tlsSupportedVersions ∨
         options.TLSMaxVersion ∉ tlsSupportedVersions) :
    ∃ badLabel,
      GetTLSOptionOverrideFuncs options =
        (Except.error (TLSError.invalidTLSVersion badLabel), []) ∧
      badLabel ∉ tlsSupportedVersions ∧
      (badLabel = options.TLSMinVersion ∨ badLabel = options.TLSMaxVersion) := by
  by_cases hmin : options.TLSMinVersion ∈ tlsSupportedVersions
  · have hmax : options.TLSMaxVersion ∉ tlsSupportedVersions := by tauto
    refine ⟨options.TLSMaxVersion, ?_, hmax, Or.inr rfl⟩
    obtain hv | hv := getTLSVersion_supported_ok hmin
    · simp only [GetTLSOptionOverrideFuncs]
      rw [hv, getTLSVersion_not_supported hmax]
    · simp only [GetTLSOptionOverrideFuncs]
      rw [hv, getTLSVersion_not_supported hmax]
  · refine ⟨options.TLSMinVersion, ?_, hmin, Or.inl rfl⟩
    simp only [GetTLSOptionOverrideFuncs]
    rw [getTLSVersion_not_supported hmin]

theorem claim_C7_invalid_label_witness :
    ("TLS11" ∉ tlsSupportedVersions) ∧
    ∃ badLabel,
      GetTLSOptionOverrideFuncs
          { TLSMaxVersion := "TLS13", TLSMinVersion := "TLS11", TLSCipherSuites := "" } =
        (Except.error (TLSError.invalidTLSVersion badLabel), []) ∧
      badLabel ∉ tlsSupportedVersions ∧
      (badLabel = "TLS11" ∨ badLabel = "TLS13") :=
  ⟨by simp [tlsSupportedVersions],
   claim_C7_invalid_label
     { TLSMaxVersion := "TLS13", TLSMinVersion := "TLS11", TLSCipherSuites := "" }
     (Or.inl (by simp [tlsSupportedVersions]))⟩

/-- Claim C8: when a non-empty cipher list survives version-range
validation, `GetTLSOptionOverrideFuncs` fails with the unknown-cipher-suite
error if some comma-separated name does not resolve; if every name
resolves it succeeds (insecure names never cause failure) and the warning
list carries one insecure-cipher warning per occurrence of a name from the
known-insecure registry. -/
theorem claim_C8_cipher_resolution (options : TLSOptions) (vmin vmax : Nat)
    (hmin : GetTLSVersion options.TLSMinVersion = Except.ok vmin)
    (hmax : GetTLSVersion options.TLSMaxVersion = Except.ok vmax)
    (hguard : rangeInvertedGuard vmin vmax = false)
    (hdisc : ciphersDiscarded options = false)
    (hcs : options.TLSCipherSuites ≠ "") :
    ((∃ n, n ∈ splitOnComma options.TLSCipherSuites ∧ lookupCipher n = none) →
      ∃ bad, (GetTLSOptionOverrideFuncs options).1 =
          Except.error (TLSError.unknownCipherSuite bad) ∧
        bad ∈ splitOnComma options.TLSCipherSuites ∧ lookupCipher bad = none)
    ∧ ((∀ n, n ∈ splitOnComma options.TLSCipherSuites → (lookupCipher n).isSome) →
      ∃ suites, GetTLSOptionOverrideFuncs options =
        (Except.ok [TLSMutator.setMinVersion vmin, TLSMutator.setMaxVersion vmax,
                    TLSMutator.setCipherSuites suites],
         insecureWarnings (splitOnComma options.TLSCipherSuites)))
    ∧ (∀ n, countEq (TLSWarning.insecureCipher n)
          (insecureWarnings (splitOnComma options.TLSCipherSuites)) =
        if n ∈ InsecureTLSCipherNames
        then countEq n (splitOnComma options.TLSCipherSuites) else 0) := by
  have hbr := getTLS_cipher_branch hmin hmax hguard hdisc hcs
  refine ⟨?_, ?_, fun n => insecureWarnings_countEq n _⟩
  · intro hex
    obtain ⟨n, hn, hlk⟩ := hex
    cases hts : TLSCipherSuites (splitOnComma options.TLSCipherSuites) with
    | ok vs =>
      have := tlsCipherSuites_ok_resolvable _ vs hts n hn
      rw [hlk] at this
      simp at this
    | error e =>
      obtain ⟨m, hm, hmlk, he⟩ := tlsCipherSuites_error_mem _ e hts
      refine ⟨m, ?_, hm, hmlk⟩
      rw [hbr, hts, he]
  · intro hall
    obtain ⟨vs, hts⟩ := tlsCipherSuites_ok_of_resolvable _ hall
    refine ⟨vs, ?_⟩
    rw [hbr, hts]

theorem claim_C8_cipher_resolution_witness :
    (∃ bad, (GetTLSOptionOverrideFuncs
        { TLSMaxVersion := "TLS13", TLSMinVersion := "TLS12",
          TLSCipherSuites := "NOT_A_CIPHER" }).1 =
          Except.error (TLSError.unknownCipherSuite bad) ∧
        bad ∈ splitOnComma "NOT_A_CIPHER" ∧ lookupCipher bad = none)
    ∧ ∃ suites, GetTLSOptionOverrideFuncs
        { TLSMaxVersion := "TLS13", TLSMinVersion := "TLS12",
          TLSCipherSuites := "TLS_RSA_WITH_RC4_128_SHA" } =
      (Except.ok [TLSMutator.setMinVersion VersionTLS12, TLSMutator.setMaxVersion VersionTLS13,
                  TLSMutator.setCipherSuites suites],
       insecureWarnings (splitOnComma "TLS_RSA_WITH_RC4_128_SHA")) := by
  constructor
  · exact (claim_C8_cipher_resolution
      { TLSMaxVersion := "TLS13", TLSMinVersion := "TLS12",
        TLSCipherSuites := "NOT_A_CIPHER" }
      VersionTLS12 VersionTLS13 rfl rfl rfl rfl (by decide)).1
      ⟨"NOT_A_CIPHER", by decide, rfl⟩
  · exact (claim_C8_cipher_resolution
      { TLSMaxVersion := "TLS13", TLSMinVersion := "TLS12",
        TLSCipherSuites := "TLS_RSA_WITH_RC4_128_SHA" }
      VersionTLS12 VersionTLS13 rfl rfl rfl rfl (by decide)).2.1
      (by decide)

/-- Claim C9: on every successful call the returned mutators come in exactly
the order [set-min-version, set-max-version, optional set-cipher-suites];
the call returns them as data without applying any of them (application is
the caller's separate `applyMutators` step), and applying the returned list
in order to a TLS configuration sets the resolved min version, the resolved
max version, and (when present) the resolved cipher suites. -/
theorem claim_C9_mutator_order (options : TLSOptions) (ms : List TLSMutator)
    (ws : List TLSWarning) (h : GetTLSOptionOverrideFuncs options = (Except.ok ms, ws)) :
    ∃ vmin vmax,
      GetTLSVersion options.TLSMinVersion = Except.ok vmin ∧
      GetTLSVersion options.TLSMaxVersion = Except.ok vmax ∧
      ((ms = [TLSMutator.setMinVersion vmin, TLSMutator.setMaxVersion vmax] ∧
        ∀ cfg, applyMutators cfg ms =
          { cfg with MinVersion := vmin, MaxVersion := vmax }) ∨
       (∃ suites,
        ms = [TLSMutator.setMinVersion vmin, TLSMutator.setMaxVersion vmax,
              TLSMutator.setCipherSuites suites] ∧
        ∀ cfg, applyMutators cfg ms =
          { MinVersion := vmin, MaxVersion := vmax, CipherSuites := suites })) := by
  obtain ⟨vmin, vmax, hmin, hmax, _, hshape⟩ := getTLS_ok_shape h
  refine ⟨vmin, vmax, hmin, hmax, ?_⟩
  rcases hshape with ⟨hms, _⟩ | ⟨suites, _, _, _, hms, _⟩
  · refine Or.inl ⟨hms, fun cfg => ?_⟩
    subst hms
    rfl
  · refine Or.inr ⟨suites, hms, fun cfg => ?_⟩
    subst hms
    rfl

theorem claim_C9_mutator_order_witness :
    ∃ vmin vmax,
      GetTLSVersion "TLS12" = Except.ok vmin ∧
      GetTLSVersion "TLS13" = Except.ok vmax ∧
      (([TLSMutator.setMinVersion VersionTLS12, TLSMutator.setMaxVersion VersionTLS13] =
          [TLSMutator.setMinVersion vmin, TLSMutator.setMaxVersion vmax] ∧
        ∀ cfg, applyMutators cfg
            [TLSMutator.setMinVersion VersionTLS12, TLSMutator.setMaxVersion VersionTLS13] =
          { cfg with MinVersion := vmin, MaxVersion := vmax }) ∨
       (∃ suites,
        [TLSMutator.setMinVersion VersionTLS12, TLSMutator.setMaxVersion VersionTLS13] =
          [TLSMutator.setMinVersion vmin, TLSMutator.setMaxVersion vmax,
           TLSMutator.setCipherSuites suites] ∧
        ∀ cfg, applyMutators cfg
            [TLSMutator.setMinVersion VersionTLS12, TLSMutator.setMaxVersion VersionTLS13] =
          { MinVersion := vmin, MaxVersion := vmax, CipherSuites := suites })) :=
  claim_C9_mutator_order
    { TLSMaxVersion := "TLS13", TLSMinVersion := "TLS12", TLSCipherSuites := "" }
    [TLSMutator.setMinVersion VersionTLS12, TLSMutator.setMaxVersion VersionTLS13] [] rfl

/-- Claim C10: `GetTLSVersion` returns one of the non-zero TLS 1.2/1.3
identifiers on success and never 0 (the zero value only accompanies an
error), so on every successful builder call the resolved max version is
non-zero: the max-version mutator at position 1 always sets an explicit,
bounded maximum version. -/
theorem claim_C10_max_version_nonzero :
    (∀ s v, GetTLSVersion s = Except.ok v →
      (v = VersionTLS12 ∨ v = VersionTLS13) ∧ v ≠ 0)
    ∧ (∀ options ms ws, GetTLSOptionOverrideFuncs options = (Except.ok ms, ws) →
        ∃ vmax, GetTLSVersion options.TLSMaxVersion = Except.ok vmax ∧ vmax ≠ 0 ∧
          ms.get? 1 = some (TLSMutator.setMaxVersion vmax) ∧
          ∀ cfg, (applyMutators cfg ms).MaxVersion = vmax) := by
  have hv : ∀ s v, GetTLSVersion s = Except.ok v →
      (v = VersionTLS12 ∨ v = VersionTLS13) ∧ v ≠ 0 := by
    intro s v h
    rcases getTLSVersion_ok_cases h with ⟨_, hveq⟩ | ⟨_, hveq⟩
    · exact ⟨Or.inl hveq, by simp [hveq, VersionTLS12]⟩
    · exact ⟨Or.inr hveq, by simp [hveq, VersionTLS13]⟩
  refine ⟨hv, ?_⟩
  intro options ms ws h
  obtain ⟨vmin, vmax, hmin, hmax, _, hshape⟩ := getTLS_ok_shape h
  refine ⟨vmax, hmax, (hv _ _ hmax).2, ?_, ?_⟩
  · rcases hshape with ⟨hms, _⟩ | ⟨suites, _, _, _, hms, _⟩ <;> (subst hms; rfl)
  · intro cfg
    rcases hshape with ⟨hms, _⟩ | ⟨suites, _, _, _, hms, _⟩ <;> (subst hms; rfl)

theorem claim_C10_max_version_nonzero_witness :
    ((VersionTLS12 = VersionTLS12 ∨ VersionTLS12 = VersionTLS13) ∧ VersionTLS12 ≠ 0)
    ∧ ∃ vmax, GetTLSVersion "TLS13" = Except.ok vmax ∧ vmax ≠ 0 ∧
        [TLSMutator.setMinVersion VersionTLS12, TLSMutator.setMaxVersion VersionTLS13].get? 1 =
          some (TLSMutator.setMaxVersion vmax) ∧
        ∀ cfg, (applyMutators cfg [TLSMutator.setMinVersion VersionTLS12,
                                   TLSMutator.setMaxVersion VersionTLS13]).MaxVersion = vmax :=
  ⟨claim_C10_max_version_nonzero.1 "TLS12" VersionTLS12 rfl,
   claim_C10_max_version_nonzero.2
     { TLSMaxVersion := "TLS13", TLSMinVersion := "TLS12", TLSCipherSuites := "" }
     [TLSMutator.setMinVersion VersionTLS12, TLSMutator.setMaxVersion VersionTLS13] [] rfl⟩
